import Mathlib

/-
Verification development for the CallFlow backend (src/index.js).

The file embeds the three webhook handlers of src/index.js — POST /incoming-call,
POST /process-speech and POST /call-ended — as pure Lean functions over an explicit
store state, and proves or refutes the testable properties of spec.md about them.

Modelling conventions:
  - The Redis store is a record of string-keyed finite maps (functions with
    pointwise update).  The EX 3600 time-to-live argument of redis.set is not
    modelled as data; expiry materialises as absence at a later lookup.
  - JavaScript numbers holding millisecond timestamps are modelled as Nat
    (exact for these magnitudes).  The two budget comparisons divide by 2
    resp. 1000 in floating point; since the operands are integers the
    comparisons are exact and are embedded as the equivalent integer
    comparisons, with lemmas (turnLimitExceeded_iff_rat,
    timeLimitExceeded_iff_rat) relating them to the literal division form.
  - Request-body fields are Option String; JavaScript coerces a missing field
    to the string "undefined" inside template literals (jsShow).
  - The OpenAI chat, and text-to-speech network calls are modelled by oracle
    outcomes carried in Env (Except Unit α); Except.error stands for a thrown
    or rejected promise.  The handlers contain no try/catch, so an error
    outcome aborts the handler: the HandlerResult carries the store as it
    stood at the abort point (Redis writes already issued are kept) and an
    Except.error response, meaning no HTTP response was produced.
-/

namespace CallFlow

/-- One chat message, as pushed onto session.messages in src/index.js. -/
structure Message where
  role : String
  content : String
  deriving DecidableEq, Repr

/-- The call-session record built at src/index.js lines 101-116 and round-tripped
through JSON in Redis.  The JavaScript field named from is called fromAddr here
(from is a Lean keyword).  Fields copied from the request body keep their
possibly-missing (undefined) nature as Option String. -/
structure CallSession where
  callSid : Option String
  tenantId : Option String
  fromAddr : Option String
  intent : Option String
  startTime : Nat
  resolvedBy : String
  messages : List Message
  deriving DecidableEq, Repr

/-- Tenant configuration as read by getTenantConfig (src/index.js lines 52-63). -/
structure TenantConfig where
  businessName : String
  businessHours : String
  humanAgent : String
  aiStyle : String
  enableHumanTransfer : Bool
  deriving DecidableEq, Repr

/-- The archival record written by POST /call-ended (src/index.js lines 287-294):
the session fields spread together with durationSec and endedAt. -/
structure CallLog where
  session : CallSession
  durationSec : Nat
  endedAt : String
  deriving DecidableEq, Repr

/-- The webhook request body fields the handlers read.  A missing field is none. -/
structure Body where
  CallSid : Option String
  To : Option String
  From : Option String
  SpeechResult : Option String
  deriving DecidableEq, Repr

/-- Ambient data of one handler invocation: the clock, the environment-variable
configuration, and the outcomes of the external provider calls this invocation
would make.  Except.error models a rejected promise (thrown exception). -/
structure Env where
  now : Nat
  nowIso : String
  today : String
  maxCallTurns : Nat
  maxCallDurationSec : Nat
  humanAgentNumber : String
  intentResult : Except Unit String
  replyResult : Except Unit String
  ttsResult : Except Unit Unit

/-- The Redis state: tenant configs, live sessions, archived call logs, and the
hash counters, each keyed by the full Redis key string. -/
structure Store where
  tenants : String → Option TenantConfig
  sessions : String → Option CallSession
  logs : String → Option CallLog
  counters : String → String → Nat

/-- Pointwise update of a string-keyed map (redis.set / redis.del). -/
def updOpt {α : Type} (f : String → Option α) (k : String) (v : Option α) :
    String → Option α :=
  fun x => if x = k then v else f x

/-- redis.hincrby: add n to one field of one hash key. -/
def hincrby (f : String → String → Nat) (k field : String) (n : Nat) :
    String → String → Nat :=
  fun x y => if x = k ∧ y = field then f x y + n else f x y

/-- JavaScript template-literal coercion of a possibly-undefined string. -/
def jsShow : Option String → String
  | some s => s
  | none => "undefined"

/-- Key helper, src/index.js line 43. -/
def tenantKey (tid : String) : String := "tenant:" ++ tid ++ ":config"

/-- Key helper, src/index.js line 44. -/
def sessionKey (tid sid : String) : String :=
  "tenant:" ++ tid ++ ":call:session:" ++ sid

/-- Key helper, src/index.js line 45. -/
def logKey (tid sid : String) : String := "tenant:" ++ tid ++ ":call:log:" ++ sid

/-- Key helper, src/index.js lines 46-47; the date component is env.today. -/
def analyticsKey (env : Env) (tid : String) : String :=
  "tenant:" ++ tid ++ ":analytics:daily:" ++ env.today

/-- The fallback configuration of getTenantConfig (src/index.js lines 56-62). -/
def defaultTenantConfig (env : Env) : TenantConfig :=
  { businessName := "CallFlow Client"
    businessHours := "10 AM to 6 PM"
    humanAgent := env.humanAgentNumber
    aiStyle := "polite and professional"
    enableHumanTransfer := true }

/-- getTenantConfig, src/index.js lines 52-63. -/
def getTenantConfig (env : Env) (store : Store) (tenantId : String) : TenantConfig :=
  match store.tenants (tenantKey tenantId) with
  | some cfg => cfg
  | none => defaultTenantConfig env

/-- The system prompt seeded into a new session (src/index.js lines 111-113). -/
def systemPrompt (tenant : TenantConfig) : String :=
  "You are an AI receptionist for " ++ tenant.businessName ++ ".\nStyle: " ++
    tenant.aiStyle ++ ".\nBusiness hours: " ++ tenant.businessHours ++ "."

/-- The welcome line of POST /incoming-call (src/index.js line 125). -/
def welcomeText (tenant : TenantConfig) : String :=
  "Hello. You have reached " ++ tenant.businessName ++ ". How can I help you today?"

/-- redis.set of a session under its composite key (always issued with EX 3600). -/
def saveSession (store : Store) (tid sid : String) (s : CallSession) : Store :=
  { store with sessions := updOpt store.sessions (sessionKey tid sid) (some s) }

/-- The abstract response a handler hands to the telephony layer. -/
inductive Response
  | ok200
  | xmlSay (text : String)
  | xmlDial (holdText : String) (number : String)
  | xmlPlayGather (text : String)
  deriving DecidableEq, Repr

/-- Outcome of one handler invocation: the store after all Redis writes that
were issued, the response (Except.error means the handler aborted on a thrown
provider error and sent nothing), and the number of chat-completion calls
issued to the language-model provider. -/
structure HandlerResult where
  store : Store
  response : Except Unit Response
  llmCalls : Nat

/-- ASCII lower-casing of the utterance, src/index.js line 190
(userSpeech.toLowerCase()). -/
def jsToLower (s : String) : String := String.mk (s.data.map Char.toLower)

/-- Whitespace test for jsTrim. -/
def isWhite (c : Char) : Bool := c = ' ' || c = '\t' || c = '\n' || c = '\r'

/-- String.prototype.trim applied to the classifier output (src/index.js line 236). -/
def jsTrim (s : String) : String :=
  String.mk (((s.data.dropWhile isWhite).reverse.dropWhile isWhite).reverse)

/-- k is a contiguous substring of s, the semantics of s.includes(k). -/
def listPrefixOf : List Char → List Char → Bool
  | [], _ => true
  | _ :: _, [] => false
  | a :: as, b :: bs => a = b && listPrefixOf as bs

/-- Recursive substring scan used by jsIncludes. -/
def listInfixOf (k : List Char) : List Char → Bool
  | [] => listPrefixOf k []
  | b :: bs => listPrefixOf k (b :: bs) || listInfixOf k bs

/-- String.prototype.includes, src/index.js line 200. -/
def jsIncludes (s k : String) : Bool := listInfixOf k.data s.data

/-- The transfer keyword list of src/index.js line 199. -/
def transferKeywords : List String := ["human", "agent", "person", "operator"]

/-- JavaScript falsiness of a string-or-null value: null, undefined and the
empty string are falsy.  This is the guard !session.intent at src/index.js
line 222. -/
def jsFalsyStr : Option String → Bool
  | none => true
  | some s => decide (s = "")

/-- The turn-budget guard of src/index.js line 154:
session.messages.length / 2 > MAX_CALL_TURNS, a floating-point comparison
between the half-integer len/2 and the integer maxTurns, which is exact and
equal to the integer comparison 2 * maxTurns < len
(lemma turnLimitExceeded_iff_rat below). -/
def turnLimitExceeded (len maxTurns : Nat) : Bool := decide (2 * maxTurns < len)

/-- The time-budget guard of src/index.js lines 170-173:
(Date.now() - session.startTime) / 1000 > MAX_CALL_DURATION_SEC, exact over
integers and equal to 1000 * maxSec + start < now
(lemma timeLimitExceeded_iff_rat below). -/
def timeLimitExceeded (now start maxSec : Nat) : Bool :=
  decide (1000 * maxSec + start < now)

/-- POST /incoming-call, src/index.js lines 93-137.  No field validation is
performed: missing CallSid or To coerce to the string undefined inside the
Redis key.  The session is written before the text-to-speech call, so it
exists even when speech synthesis throws. -/
def incomingCall (env : Env) (store : Store) (body : Body) : HandlerResult :=
  let callSid := jsShow body.CallSid
  let tenantId := jsShow body.To
  let tenant := getTenantConfig env store tenantId
  let session : CallSession :=
    { callSid := body.CallSid
      tenantId := body.To
      fromAddr := body.From
      intent := none
      startTime := env.now
      resolvedBy := "AI"
      messages := [{ role := "system", content := systemPrompt tenant }] }
  let store1 := saveSession store tenantId callSid session
  match env.ttsResult with
  | Except.error e => ⟨store1, Except.error e, 0⟩
  | Except.ok _ =>
      ⟨store1, Except.ok (Response.xmlPlayGather (welcomeText tenant)), 0⟩

/-- The intent-detection block of src/index.js lines 222-238: the classifier
runs when session.intent is falsy (null or empty), and stores the trimmed
completion text.  Returns the updated session and the number of
chat-completion calls issued (0 or 1). -/
def intentStep (env : Env) (session : CallSession) :
    Except Unit (CallSession × Nat) :=
  if jsFalsyStr session.intent then
    match env.intentResult with
    | Except.error e => Except.error e
    | Except.ok raw => Except.ok ({ session with intent := some (jsTrim raw) }, 1)
  else
    Except.ok (session, 0)

/-- The tail of POST /process-speech after the two budget guards
(src/index.js lines 189-269): append the user turn, test human transfer,
detect intent once, generate the assistant reply, persist, synthesize audio. -/
def speechMain (env : Env) (store : Store) (tenantId callSid userSpeech : String)
    (session : CallSession) : HandlerResult :=
  let tenant := getTenantConfig env store tenantId
  let lower := jsToLower userSpeech
  let session1 :=
    { session with
        messages := session.messages ++ [{ role := "user", content := userSpeech }] }
  if tenant.enableHumanTransfer && transferKeywords.any (fun k => jsIncludes lower k) then
    let session2 := { session1 with resolvedBy := "HUMAN" }
    ⟨saveSession store tenantId callSid session2,
      Except.ok (Response.xmlDial "Please hold while I connect you." tenant.humanAgent),
      0⟩
  else
    match intentStep env session1 with
    | Except.error e => ⟨store, Except.error e, 1⟩
    | Except.ok (session2, n) =>
        match env.replyResult with
        | Except.error e => ⟨store, Except.error e, n + 1⟩
        | Except.ok reply =>
            let session3 :=
              { session2 with
                  messages := session2.messages ++ [{ role := "assistant", content := reply }] }
            let store1 := saveSession store tenantId callSid session3
            match env.ttsResult with
            | Except.error e => ⟨store1, Except.error e, n + 1⟩
            | Except.ok _ => ⟨store1, Except.ok (Response.xmlPlayGather reply), n + 1⟩

/-- POST /process-speech, src/index.js lines 142-270. -/
def processSpeech (env : Env) (store : Store) (body : Body) : HandlerResult :=
  let callSid := jsShow body.CallSid
  let tenantId := jsShow body.To
  let userSpeech := body.SpeechResult.getD ""
  match store.sessions (sessionKey tenantId callSid) with
  | none => ⟨store, Except.ok Response.ok200, 0⟩
  | some session =>
      if turnLimitExceeded session.messages.length env.maxCallTurns then
        let session1 := { session with resolvedBy := "LIMIT" }
        ⟨saveSession store tenantId callSid session1,
          Except.ok (Response.xmlSay "This call has reached its maximum length. Thank you."),
          0⟩
      else if timeLimitExceeded env.now session.startTime env.maxCallDurationSec then
        let session1 := { session with resolvedBy := "TIME_LIMIT" }
        ⟨saveSession store tenantId callSid session1,
          Except.ok (Response.xmlSay "This call has timed out. Thank you."),
          0⟩
      else
        speechMain env store tenantId callSid userSpeech session

/-- POST /call-ended, src/index.js lines 275-305: archive the log, bump the two
daily counters, delete the live session.  durationSec is
Math.floor((Date.now() - startTime) / 1000); for now at or after startTime this
is Nat division. -/
def callEnded (env : Env) (store : Store) (body : Body) : Store × Response :=
  let callSid := jsShow body.CallSid
  let tenantId := jsShow body.To
  match store.sessions (sessionKey tenantId callSid) with
  | none => (store, Response.ok200)
  | some session =>
      let durationSec := (env.now - session.startTime) / 1000
      let log : CallLog :=
        { session := session, durationSec := durationSec, endedAt := env.nowIso }
      let store1 := { store with logs := updOpt store.logs (logKey tenantId callSid) (some log) }
      let store2 :=
        { store1 with
            counters := hincrby store1.counters (analyticsKey env tenantId) "total_calls" 1 }
      let store3 :=
        { store2 with
            counters :=
              hincrby store2.counters (analyticsKey env tenantId)
                ("resolved_" ++ session.resolvedBy) 1 }
      let store4 :=
        { store3 with
            sessions := updOpt store3.sessions (sessionKey tenantId callSid) none }
      (store4, Response.ok200)

/-- The terminal values the spec names for resolvedBy, plus the AI value the
code initialises with. -/
def terminalValues : List String := ["AI", "HUMAN", "LIMIT", "TIME_LIMIT"]

/-- A concrete environment used by witnesses and counterexamples. -/
def env0 : Env :=
  { now := 1000000
    nowIso := "2026-01-01T00:00:00.000Z"
    today := "2026-01-01"
    maxCallTurns := 20
    maxCallDurationSec := 900
    humanAgentNumber := "+15550000000"
    intentResult := Except.ok "support"
    replyResult := Except.ok "Sure."
    ttsResult := Except.ok () }

/-- The empty store. -/
def store0 : Store :=
  { tenants := fun _ => none
    sessions := fun _ => none
    logs := fun _ => none
    counters := fun _ _ => 0 }

/-- A concrete well-formed request body. -/
def body0 : Body :=
  { CallSid := some "CA1"
    To := some "T1"
    From := some "F1"
    SpeechResult := some "hello there" }

/-- A freshly created session for tenant T1, call CA1, as incomingCall builds it
under env0 and the default tenant configuration. -/
def session0 : CallSession :=
  { callSid := some "CA1"
    tenantId := some "T1"
    fromAddr := some "F1"
    intent := none
    startTime := 1000000
    resolvedBy := "AI"
    messages := [{ role := "system", content := systemPrompt (defaultTenantConfig env0) }] }

/-- The empty store holding exactly one session for tenant T1, call CA1. -/
def storeWith (s : CallSession) : Store := saveSession store0 "T1" "CA1" s

/-- The turn-budget guard is the floating-point comparison
messages.length / 2 > maxTurns of src/index.js line 154: both forms agree. -/
theorem turnLimitExceeded_iff_rat (len m : Nat) :
    turnLimitExceeded len m = true ↔ ((len : ℚ) / 2 > (m : ℚ)) := by
  unfold turnLimitExceeded
  rw [gt_iff_lt, lt_div_iff₀ (by norm_num : (0 : ℚ) < 2)]
  simp only [decide_eq_true_eq]
  constructor
  · intro h
    have h3 : (m * 2 : Nat) < len := by omega
    exact_mod_cast h3
  · intro h
    have h3 : (m * 2 : Nat) < len := by exact_mod_cast h
    omega

/-- The time-budget guard is the floating-point comparison
(now - startTime) / 1000 > maxSec of src/index.js lines 170-173: both forms
agree (the subtraction is signed in JavaScript, hence the Int form). -/
theorem timeLimitExceeded_iff_rat (now start m : Nat) :
    timeLimitExceeded now start m = true ↔
      ((((now : Int) - (start : Int) : Int) : ℚ) / 1000 > (m : ℚ)) := by
  unfold timeLimitExceeded
  rw [gt_iff_lt, lt_div_iff₀ (by norm_num : (0 : ℚ) < 1000)]
  simp only [decide_eq_true_eq]
  constructor
  · intro h
    have h2 : ((m : Int) * 1000 : Int) < (now : Int) - (start : Int) := by omega
    exact_mod_cast h2
  · intro h
    have h2 : ((m : Int) * 1000 : Int) < (now : Int) - (start : Int) := by exact_mod_cast h
    omega

/-- When the stored session exceeds the turn budget, /process-speech closes the
turn in the LIMIT branch of src/index.js lines 154-168. -/
theorem processSpeech_eq_limit (env : Env) (store : Store) (body : Body)
    (s : CallSession)
    (h1 : store.sessions (sessionKey (jsShow body.To) (jsShow body.CallSid)) = some s)
    (hc : turnLimitExceeded s.messages.length env.maxCallTurns = true) :
    processSpeech env store body =
      ⟨saveSession store (jsShow body.To) (jsShow body.CallSid)
          { s with resolvedBy := "LIMIT" },
        Except.ok (Response.xmlSay "This call has reached its maximum length. Thank you."),
        0⟩ := by
  simp only [processSpeech, h1, hc, if_true]

/-- When the session is inside the turn budget but over the time budget,
/process-speech closes the turn in the TIME_LIMIT branch of src/index.js
lines 170-187. -/
theorem processSpeech_eq_time (env : Env) (store : Store) (body : Body)
    (s : CallSession)
    (h1 : store.sessions (sessionKey (jsShow body.To) (jsShow body.CallSid)) = some s)
    (hc1 : turnLimitExceeded s.messages.length env.maxCallTurns = false)
    (hc2 : timeLimitExceeded env.now s.startTime env.maxCallDurationSec = true) :
    processSpeech env store body =
      ⟨saveSession store (jsShow body.To) (jsShow body.CallSid)
          { s with resolvedBy := "TIME_LIMIT" },
        Except.ok (Response.xmlSay "This call has timed out. Thank you."),
        0⟩ := by
  simp only [processSpeech, h1, hc1, hc2, if_true, Bool.false_eq_true, if_false]

/-- Inside both budgets, /process-speech continues with the main body of the
handler (src/index.js lines 189-269). -/
theorem processSpeech_eq_main (env : Env) (store : Store) (body : Body)
    (s : CallSession)
    (h1 : store.sessions (sessionKey (jsShow body.To) (jsShow body.CallSid)) = some s)
    (hc1 : turnLimitExceeded s.messages.length env.maxCallTurns = false)
    (hc2 : timeLimitExceeded env.now s.startTime env.maxCallDurationSec = false) :
    processSpeech env store body =
      speechMain env store (jsShow body.To) (jsShow body.CallSid)
        (body.SpeechResult.getD "") s := by
  simp only [processSpeech, h1, hc1, hc2, Bool.false_eq_true, if_false]

/-- When the tenant allows transfer and the lowercased utterance matches a
transfer keyword, the handler short-circuits into the transfer branch of
src/index.js lines 197-217: HUMAN is recorded, the user turn is persisted, and
no chat-completion call is issued. -/
theorem speechMain_transfer (env : Env) (store : Store) (tid sid u : String)
    (s : CallSession)
    (hk : ((getTenantConfig env store tid).enableHumanTransfer &&
        transferKeywords.any (fun k => jsIncludes (jsToLower u) k)) = true) :
    speechMain env store tid sid u s =
      ⟨saveSession store tid sid
          { s with
              messages := s.messages ++ [{ role := "user", content := u }],
              resolvedBy := "HUMAN" },
        Except.ok (Response.xmlDial "Please hold while I connect you."
          (getTenantConfig env store tid).humanAgent),
        0⟩ := by
  simp only [speechMain, hk, if_true]

/-- Transfer not triggered and the intent classifier throws: the handler aborts
with the store untouched (the only redis.set of the main path is after the
chat-completion calls, src/index.js line 252). -/
theorem speechMain_intentFail (env : Env) (store : Store) (tid sid u : String)
    (s : CallSession) (e : Unit)
    (hk : ((getTenantConfig env store tid).enableHumanTransfer &&
        transferKeywords.any (fun k => jsIncludes (jsToLower u) k)) = false)
    (hi : intentStep env
        { s with messages := s.messages ++ [{ role := "user", content := u }] } =
      Except.error e) :
    speechMain env store tid sid u s = ⟨store, Except.error e, 1⟩ := by
  simp only [speechMain, hk, Bool.false_eq_true, if_false, hi]

/-- Transfer not triggered, intent step fine, but the reply completion throws:
the handler aborts with the store untouched. -/
theorem speechMain_replyFail (env : Env) (store : Store) (tid sid u : String)
    (s s2 : CallSession) (n : Nat) (e : Unit)
    (hk : ((getTenantConfig env store tid).enableHumanTransfer &&
        transferKeywords.any (fun k => jsIncludes (jsToLower u) k)) = false)
    (hi : intentStep env
        { s with messages := s.messages ++ [{ role := "user", content := u }] } =
      Except.ok (s2, n))
    (hr : env.replyResult = Except.error e) :
    speechMain env store tid sid u s = ⟨store, Except.error e, n + 1⟩ := by
  simp only [speechMain, hk, Bool.false_eq_true, if_false, hi, hr]

/-- Transfer not triggered, chat completions fine, but speech synthesis throws:
the session with the appended user and assistant turns was already persisted
when the handler aborts (src/index.js lines 252-260). -/
theorem speechMain_ttsFail (env : Env) (store : Store) (tid sid u : String)
    (s s2 : CallSession) (n : Nat) (rep : String) (e : Unit)
    (hk : ((getTenantConfig env store tid).enableHumanTransfer &&
        transferKeywords.any (fun k => jsIncludes (jsToLower u) k)) = false)
    (hi : intentStep env
        { s with messages := s.messages ++ [{ role := "user", content := u }] } =
      Except.ok (s2, n))
    (hr : env.replyResult = Except.ok rep)
    (ht : env.ttsResult = Except.error e) :
    speechMain env store tid sid u s =
      ⟨saveSession store tid sid
          { s2 with messages := s2.messages ++ [{ role := "assistant", content := rep }] },
        Except.error e, n + 1⟩ := by
  simp only [speechMain, hk, Bool.false_eq_true, if_false, hi, hr, ht]

/-- The fully successful main path of /process-speech: user and assistant turns
appended, session persisted, play-then-gather response returned. -/
theorem speechMain_success (env : Env) (store : Store) (tid sid u : String)
    (s s2 : CallSession) (n : Nat) (rep : String)
    (hk : ((getTenantConfig env store tid).enableHumanTransfer &&
        transferKeywords.any (fun k => jsIncludes (jsToLower u) k)) = false)
    (hi : intentStep env
        { s with messages := s.messages ++ [{ role := "user", content := u }] } =
      Except.ok (s2, n))
    (hr : env.replyResult = Except.ok rep)
    (ht : env.ttsResult = Except.ok ()) :
    speechMain env store tid sid u s =
      ⟨saveSession store tid sid
          { s2 with messages := s2.messages ++ [{ role := "assistant", content := rep }] },
        Except.ok (Response.xmlPlayGather rep), n + 1⟩ := by
  simp only [speechMain, hk, Bool.false_eq_true, if_false, hi, hr, ht]

/-- The resolved counter field never collides with the total_calls field. -/
theorem resolved_field_ne_total (x : String) : ("resolved_" ++ x) ≠ "total_calls" := by
  obtain ⟨l⟩ := x
  intro h
  have h3 : "resolved_".data ++ l = "total_calls".data := congrArg String.data h
  simp at h3

/-- A session holding the seeded system turn plus 20 completed user/assistant
pairs (41 messages in total). -/
def sessionLimit : CallSession :=
  { session0 with
      messages :=
        { role := "system", content := "p" } ::
          (List.replicate 20
            [{ role := "user", content := "u" }, { role := "assistant", content := "a" }]).flatten }

/-- C3: with MAX_CALL_TURNS = 20, a speech event arriving when 20 user/assistant
pairs are already recorded (41 stored messages counting the system turn) sets
resolvedBy = LIMIT, persists the session unchanged apart from that field
(so no turn is appended), issues no language-model call, and returns the
terminal maximum-length response. -/
theorem C3_turn_budget (env : Env) (store : Store) (body : Body) (s : CallSession)
    (h1 : store.sessions (sessionKey (jsShow body.To) (jsShow body.CallSid)) = some s)
    (h2 : s.messages.length = 1 + 2 * 20)
    (h3 : env.maxCallTurns = 20) :
    processSpeech env store body =
      ⟨saveSession store (jsShow body.To) (jsShow body.CallSid)
          { s with resolvedBy := "LIMIT" },
        Except.ok (Response.xmlSay "This call has reached its maximum length. Thank you."),
        0⟩ :=
  processSpeech_eq_limit env store body s h1 (by rw [h2, h3]; decide)

/-- Witness for C3 at a concrete 41-message session. -/
theorem C3_turn_budget_witness :
    (storeWith sessionLimit).sessions (sessionKey (jsShow body0.To) (jsShow body0.CallSid)) =
        some sessionLimit ∧
    sessionLimit.messages.length = 1 + 2 * 20 ∧
    env0.maxCallTurns = 20 ∧
    processSpeech env0 (storeWith sessionLimit) body0 =
      ⟨saveSession (storeWith sessionLimit) (jsShow body0.To) (jsShow body0.CallSid)
          { sessionLimit with resolvedBy := "LIMIT" },
        Except.ok (Response.xmlSay "This call has reached its maximum length. Thank you."),
        0⟩ :=
  ⟨rfl, by decide, rfl,
    C3_turn_budget env0 (storeWith sessionLimit) body0 sessionLimit rfl (by decide) rfl⟩

/-- C4: with MAX_CALL_DURATION_SEC = 900, a speech event arriving strictly more
than 900 seconds (900000 ms) after startTime, on a session inside the turn
budget, sets resolvedBy = TIME_LIMIT, persists the session, and returns the
terminal timed-out response without appending any turn. -/
theorem C4_time_budget (env : Env) (store : Store) (body : Body) (s : CallSession)
    (h1 : store.sessions (sessionKey (jsShow body.To) (jsShow body.CallSid)) = some s)
    (h2 : s.messages.length ≤ 2 * env.maxCallTurns)
    (h3 : env.maxCallDurationSec = 900)
    (h4 : s.startTime + 900 * 1000 < env.now) :
    processSpeech env store body =
      ⟨saveSession store (jsShow body.To) (jsShow body.CallSid)
          { s with resolvedBy := "TIME_LIMIT" },
        Except.ok (Response.xmlSay "This call has timed out. Thank you."),
        0⟩ :=
  processSpeech_eq_time env store body s h1
    (by simp only [turnLimitExceeded, decide_eq_false_iff_not]; omega)
    (by rw [h3]; simp only [timeLimitExceeded, decide_eq_true_eq]; omega)

/-- Witness for C4: an event at startTime + 901 seconds. -/
theorem C4_time_budget_witness :
    (storeWith session0).sessions (sessionKey (jsShow body0.To) (jsShow body0.CallSid)) =
        some session0 ∧
    session0.messages.length ≤ 2 * ({ env0 with now := 1000000 + 901 * 1000 } : Env).maxCallTurns ∧
    ({ env0 with now := 1000000 + 901 * 1000 } : Env).maxCallDurationSec = 900 ∧
    session0.startTime + 900 * 1000 < ({ env0 with now := 1000000 + 901 * 1000 } : Env).now ∧
    processSpeech { env0 with now := 1000000 + 901 * 1000 } (storeWith session0) body0 =
      ⟨saveSession (storeWith session0) (jsShow body0.To) (jsShow body0.CallSid)
          { session0 with resolvedBy := "TIME_LIMIT" },
        Except.ok (Response.xmlSay "This call has timed out. Thank you."),
        0⟩ :=
  ⟨rfl, by decide, rfl, by decide,
    C4_time_budget { env0 with now := 1000000 + 901 * 1000 } (storeWith session0) body0 session0
      rfl (by decide) rfl (by decide)⟩

/-- C8: a speech or termination event whose (tenantId, callId) has no stored
session returns the plain 200 acknowledgement and leaves the store exactly as
it was: no session write, no counter increment, no log write, no delete, and
no language-model call. -/
theorem C8_unknown_session_noop (env env2 : Env) (store : Store) (body : Body)
    (h : store.sessions (sessionKey (jsShow body.To) (jsShow body.CallSid)) = none) :
    processSpeech env store body = ⟨store, Except.ok Response.ok200, 0⟩ ∧
      callEnded env2 store body = (store, Response.ok200) := by
  constructor
  · simp only [processSpeech, h]
  · simp only [callEnded, h]

/-- Witness for C8 on the empty store. -/
theorem C8_unknown_session_noop_witness :
    store0.sessions (sessionKey (jsShow body0.To) (jsShow body0.CallSid)) = none ∧
    (processSpeech env0 store0 body0 = ⟨store0, Except.ok Response.ok200, 0⟩ ∧
      callEnded env0 store0 body0 = (store0, Response.ok200)) :=
  ⟨rfl, C8_unknown_session_noop env0 env0 store0 body0 rfl⟩

/-- The intent-detection block only ever touches the intent field. -/
theorem intentStep_preserves (env : Env) (s t : CallSession) (n : Nat)
    (h : intentStep env s = Except.ok (t, n)) :
    t.resolvedBy = s.resolvedBy ∧ t.messages = s.messages ∧ t.startTime = s.startTime := by
  unfold intentStep at h
  split at h
  · cases hi : env.intentResult with
    | error e => rw [hi] at h; exact absurd h (by simp)
    | ok raw =>
        rw [hi] at h
        simp only [Except.ok.injEq, Prod.mk.injEq] at h
        obtain ⟨ht, hn⟩ := h
        subst ht
        exact ⟨rfl, rfl, rfl⟩
  · simp only [Except.ok.injEq, Prod.mk.injEq] at h
    obtain ⟨ht, hn⟩ := h
    subst ht
    exact ⟨rfl, rfl, rfl⟩

/-- Explicit form of /call-ended on a live session: log archived, both daily
counters bumped, session deleted. -/
theorem callEnded_eq (env : Env) (store : Store) (body : Body) (s : CallSession)
    (h1 : store.sessions (sessionKey (jsShow body.To) (jsShow body.CallSid)) = some s) :
    callEnded env store body =
      ({ store with
          logs := updOpt store.logs (logKey (jsShow body.To) (jsShow body.CallSid))
            (some { session := s, durationSec := (env.now - s.startTime) / 1000,
                    endedAt := env.nowIso }),
          counters := hincrby
            (hincrby store.counters (analyticsKey env (jsShow body.To)) "total_calls" 1)
            (analyticsKey env (jsShow body.To)) ("resolved_" ++ s.resolvedBy) 1,
          sessions := updOpt store.sessions (sessionKey (jsShow body.To) (jsShow body.CallSid))
            none },
        Response.ok200) := by
  simp only [callEnded, h1]

/-- C1 counterexample: on the concrete call (T1, CA1) the freshly created
session carries resolvedBy = AI, not UNSET, and finalizing the call without any
further event increments the daily resolved_AI counter while resolved_UNSET
stays at zero. -/
theorem C1_counterexample :
    Option.map (fun t => t.resolvedBy)
        ((incomingCall env0 store0 body0).store.sessions (sessionKey "T1" "CA1")) =
      some "AI" ∧
    ("AI" : String) ≠ "UNSET" ∧
    (callEnded env0 (incomingCall env0 store0 body0).store body0).1.counters
        (analyticsKey env0 "T1") "resolved_UNSET" = 0 ∧
    (callEnded env0 (incomingCall env0 store0 body0).store body0).1.counters
        (analyticsKey env0 "T1") "resolved_AI" = 1 := by
  refine ⟨rfl, by decide, rfl, rfl⟩

/-- C1 amended: the created session has resolvedBy = AI (the value the code
initialises, standing for resolved-by-AI-unless-reclassified), intent = null,
startTime = the creation time, and the single system turn seeded from the
tenant persona, business name and hours; finalizing a call whose resolvedBy
still holds that initial AI value increments the daily resolved_AI counter. -/
theorem C1_session_creation (env env2 : Env) (store store2 : Store) (body : Body)
    (s : CallSession)
    (h1 : store2.sessions (sessionKey (jsShow body.To) (jsShow body.CallSid)) = some s)
    (h2 : s.resolvedBy = "AI") :
    (incomingCall env store body).store.sessions
        (sessionKey (jsShow body.To) (jsShow body.CallSid)) =
      some { callSid := body.CallSid,
             tenantId := body.To,
             fromAddr := body.From,
             intent := none,
             startTime := env.now,
             resolvedBy := "AI",
             messages := [{ role := "system", content := systemPrompt (getTenantConfig env store (jsShow body.To)) }] } ∧
    (callEnded env2 store2 body).1.counters (analyticsKey env2 (jsShow body.To)) "resolved_AI" =
      store2.counters (analyticsKey env2 (jsShow body.To)) "resolved_AI" + 1 := by
  constructor
  · cases henv : env.ttsResult with
    | error e => simp [incomingCall, henv, saveSession, updOpt]
    | ok u => simp [incomingCall, henv, saveSession, updOpt]
  · rw [callEnded_eq env2 store2 body s h1, h2]
    simp [hincrby, resolved_field_ne_total]

/-- Witness for C1: the concrete session created for (T1, CA1) and its
finalization. -/
theorem C1_session_creation_witness :
    (storeWith session0).sessions (sessionKey (jsShow body0.To) (jsShow body0.CallSid)) =
        some session0 ∧
    session0.resolvedBy = "AI" ∧
    ((incomingCall env0 store0 body0).store.sessions
        (sessionKey (jsShow body0.To) (jsShow body0.CallSid)) =
      some { callSid := body0.CallSid,
             tenantId := body0.To,
             fromAddr := body0.From,
             intent := none,
             startTime := env0.now,
             resolvedBy := "AI",
             messages := [{ role := "system", content := systemPrompt (getTenantConfig env0 store0 (jsShow body0.To)) }] } ∧
    (callEnded env0 (storeWith session0) body0).1.counters
        (analyticsKey env0 (jsShow body0.To)) "resolved_AI" =
      (storeWith session0).counters (analyticsKey env0 (jsShow body0.To)) "resolved_AI" + 1) :=
  ⟨rfl, rfl, C1_session_creation env0 env0 store0 (storeWith session0) body0 session0 rfl rfl⟩

/-- C9: finalization is idempotent.  After a first /call-ended on a live
session, the session is deleted, so a second /call-ended is a pure no-op, and
each of the two daily counters has been incremented exactly once. -/
theorem C9_finalize_idempotent (env env2 : Env) (store : Store) (body : Body)
    (s : CallSession)
    (h1 : store.sessions (sessionKey (jsShow body.To) (jsShow body.CallSid)) = some s) :
    callEnded env2 (callEnded env store body).1 body =
        ((callEnded env store body).1, Response.ok200) ∧
    (callEnded env store body).1.counters (analyticsKey env (jsShow body.To)) "total_calls" =
      store.counters (analyticsKey env (jsShow body.To)) "total_calls" + 1 ∧
    (callEnded env store body).1.counters (analyticsKey env (jsShow body.To))
        ("resolved_" ++ s.resolvedBy) =
      store.counters (analyticsKey env (jsShow body.To)) ("resolved_" ++ s.resolvedBy) + 1 := by
  have h2 := callEnded_eq env store body s h1
  refine ⟨?_, ?_, ?_⟩
  · rw [h2]
    have hnone : updOpt store.sessions (sessionKey (jsShow body.To) (jsShow body.CallSid)) none
        (sessionKey (jsShow body.To) (jsShow body.CallSid)) = none := by
      simp [updOpt]
    simp only [callEnded, hnone]
  · rw [h2]
    simp [hincrby, (resolved_field_ne_total s.resolvedBy).symm]
  · rw [h2]
    simp [hincrby, resolved_field_ne_total s.resolvedBy]

/-- Witness for C9 on the concrete call (T1, CA1). -/
theorem C9_finalize_idempotent_witness :
    (storeWith session0).sessions (sessionKey (jsShow body0.To) (jsShow body0.CallSid)) =
        some session0 ∧
    (callEnded env0 (callEnded env0 (storeWith session0) body0).1 body0 =
        ((callEnded env0 (storeWith session0) body0).1, Response.ok200) ∧
      (callEnded env0 (storeWith session0) body0).1.counters
          (analyticsKey env0 (jsShow body0.To)) "total_calls" =
        (storeWith session0).counters (analyticsKey env0 (jsShow body0.To)) "total_calls" + 1 ∧
      (callEnded env0 (storeWith session0) body0).1.counters
          (analyticsKey env0 (jsShow body0.To)) ("resolved_" ++ session0.resolvedBy) =
        (storeWith session0).counters (analyticsKey env0 (jsShow body0.To))
            ("resolved_" ++ session0.resolvedBy) + 1) :=
  ⟨rfl, C9_finalize_idempotent env0 env0 (storeWith session0) body0 session0 rfl⟩

/-- A request body with both identifiers (and all other fields) missing. -/
def bodyMissing : Body :=
  { CallSid := none, To := none, From := none, SpeechResult := none }

/-- C10 counterexample: an initiation event with CallSid and To missing is not
rejected; the identifiers are coerced to the string undefined and a session
record is created under the coerced key. -/
theorem C10_counterexample :
    bodyMissing.CallSid = none ∧ bodyMissing.To = none ∧
    (incomingCall env0 store0 bodyMissing).store.sessions
        (sessionKey "undefined" "undefined") =
      some { callSid := none,
             tenantId := none,
             fromAddr := none,
             intent := none,
             startTime := env0.now,
             resolvedBy := "AI",
             messages := [{ role := "system", content := systemPrompt (defaultTenantConfig env0) }] } := by
  refine ⟨rfl, rfl, rfl⟩

/-- C10 amended: the handlers perform no payload validation.  A speech or
termination event with missing identifiers is acknowledged without any state
mutation only because no session is stored under the coerced key
tenant:undefined:call:session:undefined; an initiation event with missing
identifiers does create a session record under that coerced key. -/
theorem C10_no_validation (env env2 env3 : Env) (store : Store)
    (h : store.sessions (sessionKey "undefined" "undefined") = none) :
    processSpeech env store bodyMissing = ⟨store, Except.ok Response.ok200, 0⟩ ∧
    callEnded env2 store bodyMissing = (store, Response.ok200) ∧
    ((incomingCall env3 store bodyMissing).store.sessions
        (sessionKey "undefined" "undefined")).isSome = true := by
  have h' : store.sessions
      (sessionKey (jsShow bodyMissing.To) (jsShow bodyMissing.CallSid)) = none := h
  refine ⟨?_, ?_, ?_⟩
  · simp only [processSpeech, h']
  · simp only [callEnded, h']
  · have hkey : sessionKey "undefined" "undefined" =
        sessionKey (jsShow bodyMissing.To) (jsShow bodyMissing.CallSid) := rfl
    cases henv : env3.ttsResult with
    | error e =>
        simp only [incomingCall, henv, saveSession, updOpt]
        rw [if_pos hkey]
        rfl
    | ok u =>
        simp only [incomingCall, henv, saveSession, updOpt]
        rw [if_pos hkey]
        rfl

/-- Witness for C10 on the empty store. -/
theorem C10_no_validation_witness :
    store0.sessions (sessionKey "undefined" "undefined") = none ∧
    (processSpeech env0 store0 bodyMissing = ⟨store0, Except.ok Response.ok200, 0⟩ ∧
      callEnded env0 store0 bodyMissing = (store0, Response.ok200) ∧
      ((incomingCall env0 store0 bodyMissing).store.sessions
          (sessionKey "undefined" "undefined")).isSome = true) :=
  ⟨rfl, C10_no_validation env0 env0 env0 store0 rfl⟩

/-- A request body whose utterance asks for a human. -/
def bodyHuman : Body := { body0 with SpeechResult := some "I want to talk to a Human" }

/-- C5: on a live session inside both budgets, when the tenant enables human
transfer and the lowercased utterance contains a transfer keyword, the handler
sets resolvedBy = HUMAN and returns the dial response to the tenant
human-agent address before any intent classification or reply generation
(zero chat-completion calls); when the tenant disables transfer, the same
utterance never produces a dial response and never sets HUMAN. -/
theorem C5_human_transfer (env : Env) (store : Store) (body : Body) (s : CallSession)
    (h1 : store.sessions (sessionKey (jsShow body.To) (jsShow body.CallSid)) = some s)
    (h2 : s.messages.length ≤ 2 * env.maxCallTurns)
    (h3 : env.now ≤ 1000 * env.maxCallDurationSec + s.startTime)
    (hkw : transferKeywords.any
        (fun k => jsIncludes (jsToLower (body.SpeechResult.getD "")) k) = true) :
    ((getTenantConfig env store (jsShow body.To)).enableHumanTransfer = true →
      processSpeech env store body =
        ⟨saveSession store (jsShow body.To) (jsShow body.CallSid)
            { s with
                messages := s.messages ++
                  [{ role := "user", content := body.SpeechResult.getD "" }],
                resolvedBy := "HUMAN" },
          Except.ok (Response.xmlDial "Please hold while I connect you."
            (getTenantConfig env store (jsShow body.To)).humanAgent),
          0⟩) ∧
    ((getTenantConfig env store (jsShow body.To)).enableHumanTransfer = false →
      Option.map (fun t => t.resolvedBy)
          ((processSpeech env store body).store.sessions
            (sessionKey (jsShow body.To) (jsShow body.CallSid))) = some s.resolvedBy ∧
      ∀ t a, (processSpeech env store body).response ≠ Except.ok (Response.xmlDial t a)) := by
  have hc1 : turnLimitExceeded s.messages.length env.maxCallTurns = false := by
    simp only [turnLimitExceeded, decide_eq_false_iff_not]; omega
  have hc2 : timeLimitExceeded env.now s.startTime env.maxCallDurationSec = false := by
    simp only [timeLimitExceeded, decide_eq_false_iff_not]; omega
  have hmain := processSpeech_eq_main env store body s h1 hc1 hc2
  constructor
  · intro ht
    have hk : ((getTenantConfig env store (jsShow body.To)).enableHumanTransfer &&
        transferKeywords.any
          (fun k => jsIncludes (jsToLower (body.SpeechResult.getD "")) k)) = true := by
      rw [ht, hkw]; rfl
    rw [hmain, speechMain_transfer env store (jsShow body.To) (jsShow body.CallSid)
      (body.SpeechResult.getD "") s hk]
  · intro ht
    have hk : ((getTenantConfig env store (jsShow body.To)).enableHumanTransfer &&
        transferKeywords.any
          (fun k => jsIncludes (jsToLower (body.SpeechResult.getD "")) k)) = false := by
      rw [ht]; rfl
    rw [hmain]
    cases hi : intentStep env
        { s with messages := s.messages ++
            [{ role := "user", content := body.SpeechResult.getD "" }] } with
    | error e =>
        rw [speechMain_intentFail env store (jsShow body.To) (jsShow body.CallSid)
          (body.SpeechResult.getD "") s e hk hi]
        exact ⟨by simp [h1], by intro t a hcon; cases hcon⟩
    | ok p =>
        obtain ⟨s2, n⟩ := p
        have hpres := intentStep_preserves env _ s2 n hi
        cases hr : env.replyResult with
        | error e =>
            rw [speechMain_replyFail env store (jsShow body.To) (jsShow body.CallSid)
              (body.SpeechResult.getD "") s s2 n e hk hi hr]
            exact ⟨by simp [h1], by intro t a hcon; cases hcon⟩
        | ok rep =>
            cases htts : env.ttsResult with
            | error e =>
                rw [speechMain_ttsFail env store (jsShow body.To) (jsShow body.CallSid)
                  (body.SpeechResult.getD "") s s2 n rep e hk hi hr htts]
                refine ⟨?_, by intro t a hcon; cases hcon⟩
                simp [saveSession, updOpt, hpres.1]
            | ok uu =>
                cases uu
                rw [speechMain_success env store (jsShow body.To) (jsShow body.CallSid)
                  (body.SpeechResult.getD "") s s2 n rep hk hi hr htts]
                refine ⟨?_, by intro t a hcon; simp at hcon⟩
                simp [saveSession, updOpt, hpres.1]

/-- Witness for C5: the default tenant configuration (transfer enabled) and the
utterance asking for a Human. -/
theorem C5_human_transfer_witness :
    (storeWith session0).sessions (sessionKey (jsShow bodyHuman.To) (jsShow bodyHuman.CallSid)) =
        some session0 ∧
    session0.messages.length ≤ 2 * env0.maxCallTurns ∧
    env0.now ≤ 1000 * env0.maxCallDurationSec + session0.startTime ∧
    transferKeywords.any
        (fun k => jsIncludes (jsToLower (bodyHuman.SpeechResult.getD "")) k) = true ∧
    (((getTenantConfig env0 (storeWith session0) (jsShow bodyHuman.To)).enableHumanTransfer = true →
      processSpeech env0 (storeWith session0) bodyHuman =
        ⟨saveSession (storeWith session0) (jsShow bodyHuman.To) (jsShow bodyHuman.CallSid)
            { session0 with
                messages := session0.messages ++
                  [{ role := "user", content := bodyHuman.SpeechResult.getD "" }],
                resolvedBy := "HUMAN" },
          Except.ok (Response.xmlDial "Please hold while I connect you."
            (getTenantConfig env0 (storeWith session0) (jsShow bodyHuman.To)).humanAgent),
          0⟩) ∧
    ((getTenantConfig env0 (storeWith session0) (jsShow bodyHuman.To)).enableHumanTransfer = false →
      Option.map (fun t => t.resolvedBy)
          ((processSpeech env0 (storeWith session0) bodyHuman).store.sessions
            (sessionKey (jsShow bodyHuman.To) (jsShow bodyHuman.CallSid))) = some session0.resolvedBy ∧
      ∀ t a, (processSpeech env0 (storeWith session0) bodyHuman).response ≠
        Except.ok (Response.xmlDial t a))) :=
  ⟨rfl, by decide, by decide, by decide,
    C5_human_transfer env0 (storeWith session0) bodyHuman session0 rfl (by decide) (by decide)
      (by decide)⟩

/-- A session already resolved by a human transfer on an earlier turn. -/
def sHuman : CallSession := { session0 with resolvedBy := "HUMAN", intent := some "support" }

/-- C2 counterexample: a session whose resolvedBy already holds the terminal
value HUMAN (one stored message) still accepts a later speech event, which
appends a new user turn and a new assistant turn (three stored messages), and
the HUMAN branch can re-assign resolvedBy on any later keyword utterance, so
the terminal assignment is not once-only and terminal sessions are not closed. -/
theorem C2_counterexample :
    sHuman.resolvedBy = "HUMAN" ∧
    sHuman.messages.length = 1 ∧
    Option.map (fun t => t.messages.length)
        ((processSpeech env0 (storeWith sHuman) body0).store.sessions
          (sessionKey "T1" "CA1")) = some 3 ∧
    Option.map (fun t => t.resolvedBy)
        ((processSpeech env0 (storeWith sHuman) bodyHuman).store.sessions
          (sessionKey "T1" "CA1")) = some "HUMAN" := by
  refine ⟨rfl, rfl, rfl, rfl⟩

/-- C2 amended: resolvedBy always stays within {AI, HUMAN, LIMIT, TIME_LIMIT}
(it starts at AI and may be re-assigned by later events rather than being
set at most once), and once the turn budget has fired the LIMIT branch
re-triggers on every further speech event, so no further turn is ever
appended; after a HUMAN transfer, however, a later speech event still appends
turns (see the counterexample). -/
theorem C2_resolvedBy_evolution (env : Env) (store : Store) (body : Body) (s : CallSession)
    (h1 : store.sessions (sessionKey (jsShow body.To) (jsShow body.CallSid)) = some s)
    (h2 : s.resolvedBy ∈ terminalValues) :
    (∀ t, (processSpeech env store body).store.sessions
        (sessionKey (jsShow body.To) (jsShow body.CallSid)) = some t →
      t.resolvedBy ∈ terminalValues) ∧
    (turnLimitExceeded s.messages.length env.maxCallTurns = true →
      (processSpeech env store body).store.sessions
          (sessionKey (jsShow body.To) (jsShow body.CallSid)) =
        some { s with resolvedBy := "LIMIT" }) := by
  constructor
  · intro t hlook
    cases hc1 : turnLimitExceeded s.messages.length env.maxCallTurns with
    | true =>
        rw [processSpeech_eq_limit env store body s h1 hc1] at hlook
        simp [saveSession, updOpt] at hlook
        rw [← hlook]
        simp [terminalValues]
    | false =>
        cases hc2 : timeLimitExceeded env.now s.startTime env.maxCallDurationSec with
        | true =>
            rw [processSpeech_eq_time env store body s h1 hc1 hc2] at hlook
            simp [saveSession, updOpt] at hlook
            rw [← hlook]
            simp [terminalValues]
        | false =>
            rw [processSpeech_eq_main env store body s h1 hc1 hc2] at hlook
            cases hk : ((getTenantConfig env store (jsShow body.To)).enableHumanTransfer &&
                transferKeywords.any
                  (fun k => jsIncludes (jsToLower (body.SpeechResult.getD "")) k)) with
            | true =>
                rw [speechMain_transfer env store (jsShow body.To) (jsShow body.CallSid)
                  (body.SpeechResult.getD "") s hk] at hlook
                simp [saveSession, updOpt] at hlook
                rw [← hlook]
                simp [terminalValues]
            | false =>
                cases hi : intentStep env
                    { s with messages := s.messages ++
                        [{ role := "user", content := body.SpeechResult.getD "" }] } with
                | error e =>
                    rw [speechMain_intentFail env store (jsShow body.To) (jsShow body.CallSid)
                      (body.SpeechResult.getD "") s e hk hi] at hlook
                    simp only [h1, Option.some.injEq] at hlook
                    rw [← hlook]
                    exact h2
                | ok p =>
                    obtain ⟨s2, n⟩ := p
                    have hpres := intentStep_preserves env _ s2 n hi
                    cases hr : env.replyResult with
                    | error e =>
                        rw [speechMain_replyFail env store (jsShow body.To) (jsShow body.CallSid)
                          (body.SpeechResult.getD "") s s2 n e hk hi hr] at hlook
                        simp only [h1, Option.some.injEq] at hlook
                        rw [← hlook]
                        exact h2
                    | ok rep =>
                        cases htts : env.ttsResult with
                        | error e =>
                            rw [speechMain_ttsFail env store (jsShow body.To) (jsShow body.CallSid)
                              (body.SpeechResult.getD "") s s2 n rep e hk hi hr htts] at hlook
                            simp [saveSession, updOpt] at hlook
                            rw [← hlook]
                            simpa [hpres.1] using h2
                        | ok uu =>
                            cases uu
                            rw [speechMain_success env store (jsShow body.To) (jsShow body.CallSid)
                              (body.SpeechResult.getD "") s s2 n rep hk hi hr htts] at hlook
                            simp [saveSession, updOpt] at hlook
                            rw [← hlook]
                            simpa [hpres.1] using h2
  · intro hlim
    rw [processSpeech_eq_limit env store body s h1 hlim]
    simp [saveSession, updOpt]

/-- Witness for C2 amended: the session already resolved HUMAN is still only
re-assigned values inside the terminal set. -/
theorem C2_resolvedBy_evolution_witness :
    (storeWith sHuman).sessions (sessionKey (jsShow body0.To) (jsShow body0.CallSid)) =
        some sHuman ∧
    sHuman.resolvedBy ∈ terminalValues ∧
    ((∀ t, (processSpeech env0 (storeWith sHuman) body0).store.sessions
        (sessionKey (jsShow body0.To) (jsShow body0.CallSid)) = some t →
      t.resolvedBy ∈ terminalValues) ∧
    (turnLimitExceeded sHuman.messages.length env0.maxCallTurns = true →
      (processSpeech env0 (storeWith sHuman) body0).store.sessions
          (sessionKey (jsShow body0.To) (jsShow body0.CallSid)) =
        some { sHuman with resolvedBy := "LIMIT" })) :=
  ⟨rfl, by decide,
    C2_resolvedBy_evolution env0 (storeWith sHuman) body0 sHuman rfl (by decide)⟩

/-- A session whose intent was stored as the empty string (the classifier
returned pure whitespace, trimmed to empty). -/
def sEmptyIntent : CallSession := { session0 with intent := some "" }

/-- C6 counterexample: intent = some empty-string is a non-null value, yet a
later speech event re-invokes the classifier (two chat-completion calls: the
classifier and the reply) and overwrites intent, because the guard at
src/index.js line 222 is JavaScript falsiness, not a null test. -/
theorem C6_counterexample :
    sEmptyIntent.intent = some "" ∧
    (some "" : Option String) ≠ none ∧
    Option.map (fun t => t.intent)
        ((processSpeech env0 (storeWith sEmptyIntent) body0).store.sessions
          (sessionKey "T1" "CA1")) = some (some "support") ∧
    (processSpeech env0 (storeWith sEmptyIntent) body0).llmCalls = 2 := by
  refine ⟨rfl, by decide, rfl, rfl⟩

/-- C6 amended: once intent holds a non-empty value it is never changed by any
later speech event and the classifier is not invoked again (at most the one
reply completion is issued); the classifier is invoked exactly when intent is
null or empty, and on a completed turn the stored value is the trimmed
classifier output. -/
theorem C6_intent_once (env : Env) (store : Store) (body : Body) (s : CallSession)
    (h1 : store.sessions (sessionKey (jsShow body.To) (jsShow body.CallSid)) = some s) :
    (∀ v, s.intent = some v → v ≠ "" →
      ((∀ t, (processSpeech env store body).store.sessions
          (sessionKey (jsShow body.To) (jsShow body.CallSid)) = some t →
        t.intent = some v) ∧
      (processSpeech env store body).llmCalls ≤ 1)) ∧
    (∀ raw rep,
      turnLimitExceeded s.messages.length env.maxCallTurns = false →
      timeLimitExceeded env.now s.startTime env.maxCallDurationSec = false →
      ((getTenantConfig env store (jsShow body.To)).enableHumanTransfer &&
        transferKeywords.any
          (fun k => jsIncludes (jsToLower (body.SpeechResult.getD "")) k)) = false →
      jsFalsyStr s.intent = true →
      env.intentResult = Except.ok raw →
      env.replyResult = Except.ok rep →
      ∀ t, (processSpeech env store body).store.sessions
          (sessionKey (jsShow body.To) (jsShow body.CallSid)) = some t →
        t.intent = some (jsTrim raw)) := by
  constructor
  · intro v hv hne
    cases hc1 : turnLimitExceeded s.messages.length env.maxCallTurns with
    | true =>
        rw [processSpeech_eq_limit env store body s h1 hc1]
        refine ⟨?_, by exact Nat.zero_le 1⟩
        intro t hlook
        simp [saveSession, updOpt] at hlook
        rw [← hlook]
        exact hv
    | false =>
        cases hc2 : timeLimitExceeded env.now s.startTime env.maxCallDurationSec with
        | true =>
            rw [processSpeech_eq_time env store body s h1 hc1 hc2]
            refine ⟨?_, by exact Nat.zero_le 1⟩
            intro t hlook
            simp [saveSession, updOpt] at hlook
            rw [← hlook]
            exact hv
        | false =>
            rw [processSpeech_eq_main env store body s h1 hc1 hc2]
            cases hk : ((getTenantConfig env store (jsShow body.To)).enableHumanTransfer &&
                transferKeywords.any
                  (fun k => jsIncludes (jsToLower (body.SpeechResult.getD "")) k)) with
            | true =>
                rw [speechMain_transfer env store (jsShow body.To) (jsShow body.CallSid)
                  (body.SpeechResult.getD "") s hk]
                refine ⟨?_, by exact Nat.zero_le 1⟩
                intro t hlook
                simp [saveSession, updOpt] at hlook
                rw [← hlook]
                exact hv
            | false =>
                have hfalsy : jsFalsyStr
                    ({ s with messages := s.messages ++
                        [{ role := "user", content := body.SpeechResult.getD "" }] } :
                      CallSession).intent = false := by
                  simp [jsFalsyStr, hv, hne]
                have hi : intentStep env
                    { s with messages := s.messages ++
                        [{ role := "user", content := body.SpeechResult.getD "" }] } =
                    Except.ok
                      ({ s with messages := s.messages ++
                          [{ role := "user", content := body.SpeechResult.getD "" }] }, 0) := by
                  unfold intentStep
                  rw [hfalsy]
                  simp
                cases hr : env.replyResult with
                | error e =>
                    rw [speechMain_replyFail env store (jsShow body.To) (jsShow body.CallSid)
                      (body.SpeechResult.getD "") s _ 0 e hk hi hr]
                    refine ⟨?_, by exact Nat.le_refl 1⟩
                    intro t hlook
                    rw [h1] at hlook
                    injection hlook with hlook
                    rw [← hlook]
                    exact hv
                | ok rep =>
                    cases htts : env.ttsResult with
                    | error e =>
                        rw [speechMain_ttsFail env store (jsShow body.To) (jsShow body.CallSid)
                          (body.SpeechResult.getD "") s _ 0 rep e hk hi hr htts]
                        refine ⟨?_, by exact Nat.le_refl 1⟩
                        intro t hlook
                        simp [saveSession, updOpt] at hlook
                        rw [← hlook]
                        exact hv
                    | ok uu =>
                        cases uu
                        rw [speechMain_success env store (jsShow body.To) (jsShow body.CallSid)
                          (body.SpeechResult.getD "") s _ 0 rep hk hi hr htts]
                        refine ⟨?_, by exact Nat.le_refl 1⟩
                        intro t hlook
                        simp [saveSession, updOpt] at hlook
                        rw [← hlook]
                        exact hv
  · intro raw rep hc1 hc2 hk hfalsy hir hrr t hlook
    rw [processSpeech_eq_main env store body s h1 hc1 hc2] at hlook
    have hfalsy1 : jsFalsyStr
        ({ s with messages := s.messages ++
            [{ role := "user", content := body.SpeechResult.getD "" }] } :
          CallSession).intent = true := hfalsy
    have hi : intentStep env
        { s with messages := s.messages ++
            [{ role := "user", content := body.SpeechResult.getD "" }] } =
        Except.ok
          ({ s with
              messages := s.messages ++ [{ role := "user", content := body.SpeechResult.getD "" }],
              intent := some (jsTrim raw) },
            1) := by
      unfold intentStep
      rw [hfalsy1, hir]
      simp
    cases htts : env.ttsResult with
    | error e =>
        rw [speechMain_ttsFail env store (jsShow body.To) (jsShow body.CallSid)
          (body.SpeechResult.getD "") s _ 1 rep e hk hi hrr htts] at hlook
        simp [saveSession, updOpt] at hlook
        rw [← hlook]
    | ok uu =>
        cases uu
        rw [speechMain_success env store (jsShow body.To) (jsShow body.CallSid)
          (body.SpeechResult.getD "") s _ 1 rep hk hi hrr htts] at hlook
        simp [saveSession, updOpt] at hlook
        rw [← hlook]

/-- A session whose intent is already classified with a non-empty label. -/
def sIntentSet : CallSession := { session0 with intent := some "sales" }

/-- Witness for C6 amended on a session already classified as sales. -/
theorem C6_intent_once_witness :
    (storeWith sIntentSet).sessions (sessionKey (jsShow body0.To) (jsShow body0.CallSid)) =
        some sIntentSet ∧
    ((∀ v, sIntentSet.intent = some v → v ≠ "" →
      ((∀ t, (processSpeech env0 (storeWith sIntentSet) body0).store.sessions
          (sessionKey (jsShow body0.To) (jsShow body0.CallSid)) = some t →
        t.intent = some v) ∧
      (processSpeech env0 (storeWith sIntentSet) body0).llmCalls ≤ 1)) ∧
    (∀ raw rep,
      turnLimitExceeded sIntentSet.messages.length env0.maxCallTurns = false →
      timeLimitExceeded env0.now sIntentSet.startTime env0.maxCallDurationSec = false →
      ((getTenantConfig env0 (storeWith sIntentSet) (jsShow body0.To)).enableHumanTransfer &&
        transferKeywords.any
          (fun k => jsIncludes (jsToLower (body0.SpeechResult.getD "")) k)) = false →
      jsFalsyStr sIntentSet.intent = true →
      env0.intentResult = Except.ok raw →
      env0.replyResult = Except.ok rep →
      ∀ t, (processSpeech env0 (storeWith sIntentSet) body0).store.sessions
          (sessionKey (jsShow body0.To) (jsShow body0.CallSid)) = some t →
        t.intent = some (jsTrim raw))) :=
  ⟨rfl, C6_intent_once env0 (storeWith sIntentSet) body0 sIntentSet rfl⟩

/-- An environment in which the reply chat-completion call throws. -/
def envReplyFail : Env := { env0 with replyResult := Except.error () }

/-- C7 counterexample: a language-model failure during a speech event is not
caught anywhere in the handler: the request aborts with no response at all
(Except.error), contradicting the claim that the handler never crashes and
always returns a caught, degraded response. -/
theorem C7_counterexample :
    envReplyFail.replyResult = Except.error () ∧
    (storeWith session0).sessions (sessionKey "T1" "CA1") = some session0 ∧
    (processSpeech envReplyFail (storeWith session0) body0).response = Except.error () := by
  refine ⟨rfl, rfl, rfl⟩

/-- C7 amended: a provider failure propagates out of the handler uncaught, so
no response is emitted; for classifier or reply failures the store is exactly
as before the event (no turn is persisted and the stored session remains
loadable on retry), while a speech-synthesis failure happens after the session
with the two new turns was already persisted. -/
theorem C7_provider_failure (env : Env) (store : Store) (body : Body) (s : CallSession)
    (h1 : store.sessions (sessionKey (jsShow body.To) (jsShow body.CallSid)) = some s)
    (hc1 : turnLimitExceeded s.messages.length env.maxCallTurns = false)
    (hc2 : timeLimitExceeded env.now s.startTime env.maxCallDurationSec = false)
    (hk : ((getTenantConfig env store (jsShow body.To)).enableHumanTransfer &&
        transferKeywords.any
          (fun k => jsIncludes (jsToLower (body.SpeechResult.getD "")) k)) = false) :
    (∀ e, intentStep env
        { s with messages := s.messages ++
            [{ role := "user", content := body.SpeechResult.getD "" }] } = Except.error e →
      processSpeech env store body = ⟨store, Except.error e, 1⟩ ∧
        store.sessions (sessionKey (jsShow body.To) (jsShow body.CallSid)) = some s) ∧
    (∀ (s2 : CallSession) (n : Nat) (e : Unit), intentStep env
        { s with messages := s.messages ++
            [{ role := "user", content := body.SpeechResult.getD "" }] } = Except.ok (s2, n) →
      env.replyResult = Except.error e →
      processSpeech env store body = ⟨store, Except.error e, n + 1⟩ ∧
        store.sessions (sessionKey (jsShow body.To) (jsShow body.CallSid)) = some s) ∧
    (∀ (s2 : CallSession) (n : Nat) (rep : String) (e : Unit), intentStep env
        { s with messages := s.messages ++
            [{ role := "user", content := body.SpeechResult.getD "" }] } = Except.ok (s2, n) →
      env.replyResult = Except.ok rep →
      env.ttsResult = Except.error e →
      processSpeech env store body =
        ⟨saveSession store (jsShow body.To) (jsShow body.CallSid)
            { s2 with messages := s2.messages ++ [{ role := "assistant", content := rep }] },
          Except.error e, n + 1⟩) := by
  have hmain := processSpeech_eq_main env store body s h1 hc1 hc2
  refine ⟨?_, ?_, ?_⟩
  · intro e hi
    exact ⟨by rw [hmain, speechMain_intentFail env store (jsShow body.To) (jsShow body.CallSid)
      (body.SpeechResult.getD "") s e hk hi], h1⟩
  · intro s2 n e hi hr
    exact ⟨by rw [hmain, speechMain_replyFail env store (jsShow body.To) (jsShow body.CallSid)
      (body.SpeechResult.getD "") s s2 n e hk hi hr], h1⟩
  · intro s2 n rep e hi hr ht
    rw [hmain, speechMain_ttsFail env store (jsShow body.To) (jsShow body.CallSid)
      (body.SpeechResult.getD "") s s2 n rep e hk hi hr ht]

/-- Witness for C7 amended in the environment whose reply completion throws. -/
theorem C7_provider_failure_witness :
    (storeWith session0).sessions (sessionKey (jsShow body0.To) (jsShow body0.CallSid)) =
        some session0 ∧
    turnLimitExceeded session0.messages.length envReplyFail.maxCallTurns = false ∧
    timeLimitExceeded envReplyFail.now session0.startTime envReplyFail.maxCallDurationSec = false ∧
    ((getTenantConfig envReplyFail (storeWith session0) (jsShow body0.To)).enableHumanTransfer &&
        transferKeywords.any
          (fun k => jsIncludes (jsToLower (body0.SpeechResult.getD "")) k)) = false ∧
    ((∀ e, intentStep envReplyFail
        { session0 with messages := session0.messages ++
            [{ role := "user", content := body0.SpeechResult.getD "" }] } = Except.error e →
      processSpeech envReplyFail (storeWith session0) body0 =
          ⟨storeWith session0, Except.error e, 1⟩ ∧
        (storeWith session0).sessions (sessionKey (jsShow body0.To) (jsShow body0.CallSid)) =
          some session0) ∧
    (∀ (s2 : CallSession) (n : Nat) (e : Unit), intentStep envReplyFail
        { session0 with messages := session0.messages ++
            [{ role := "user", content := body0.SpeechResult.getD "" }] } = Except.ok (s2, n) →
      envReplyFail.replyResult = Except.error e →
      processSpeech envReplyFail (storeWith session0) body0 =
          ⟨storeWith session0, Except.error e, n + 1⟩ ∧
        (storeWith session0).sessions (sessionKey (jsShow body0.To) (jsShow body0.CallSid)) =
          some session0) ∧
    (∀ (s2 : CallSession) (n : Nat) (rep : String) (e : Unit), intentStep envReplyFail
        { session0 with messages := session0.messages ++
            [{ role := "user", content := body0.SpeechResult.getD "" }] } = Except.ok (s2, n) →
      envReplyFail.replyResult = Except.ok rep →
      envReplyFail.ttsResult = Except.error e →
      processSpeech envReplyFail (storeWith session0) body0 =
        ⟨saveSession (storeWith session0) (jsShow body0.To) (jsShow body0.CallSid)
            { s2 with messages := s2.messages ++ [{ role := "assistant", content := rep }] },
          Except.error e, n + 1⟩)) :=
  ⟨rfl, by decide, by decide, by decide,
    C7_provider_failure envReplyFail (storeWith session0) body0 session0 rfl (by decide)
      (by decide) (by decide)⟩

end CallFlow
